import Mathlib

/-!
Shallow embedding of the NVDA Volume Adjustment add-on core
(`addon/globalPlugins/volumeAdjustment/__init__.py`).

Volume scalars handled by the native audio API are modelled as rationals;
the add-on only ever combines them with `+`, `-`, `min`, `max` and order
comparisons against the constant step `0.01`, all of which are exact on the
representable values involved.  A native volume/mute control handle is
modelled by its observable state (volume scalar and mute flag); the
announcement sink `ui.message` is modelled by returning the list of
announcements a call produces.
-/

namespace VolumeAdjustment

/-- Value for adjusting the volume of the system sound:
`self._stepChange = 0.01` (`__init__.py`, line 40). -/
def stepChange : ℚ := 1 / 100

/-- Observable state of one native volume control handle (a device endpoint
volume or a session simple-audio-volume): the volume scalar in `[0,1]` and
the mute flag. -/
structure ControlState where
  volume : ℚ
  mute : Bool
deriving DecidableEq, Repr

/-- Announcements sent through `ui.message` by the plugin:
`announceVolumeLevel` speaks `"Volume <int(volumeLevel*100)>"`
(`__init__.py`, lines 53-59) and `announceIsMuted` speaks the muted message
(lines 61-64).  Only the data relevant to the claims is kept: which message
was spoken and the integer percentage. -/
inductive Announcement where
  | volume (percent : ℤ)
  | muted
deriving DecidableEq, Repr

/-- Embeds `announceVolumeLevel` (`__init__.py`, line 59): the spoken number
is `int(volumeLevel*100)`; Python `int()` truncates toward zero, which
coincides with the floor for the non-negative levels that occur. -/
def announceVolume (volumeLevel : ℚ) : Announcement :=
  Announcement.volume ⌊volumeLevel * 100⌋

/-- Embeds `GlobalPlugin.increaseSession` (`__init__.py`, lines 66-73) acting
on the resolved session control.  Returns the updated control state and the
returned `volumeLevel`. -/
def increaseSession (c : ControlState) : ControlState × ℚ :=
  let volumeLevel := c.volume
  let c := if volumeLevel ≤ stepChange ∧ c.mute = true then { c with mute := false } else c
  let volumeLevel := min 1 (volumeLevel + stepChange)
  ({ c with volume := volumeLevel }, volumeLevel)

/-- Embeds `GlobalPlugin.decreaseSession` (`__init__.py`, lines 75-85).
Returns the updated control state, the announcements produced inside the
method, and the returned `volumeLevel`.  On the muting branch
`SetMasterVolume` is not called, so the stored volume is left unchanged. -/
def decreaseSession (c : ControlState) : ControlState × List Announcement × ℚ :=
  let volumeLevel := c.volume
  let volumeLevel := max 0 (volumeLevel - stepChange)
  if volumeLevel > 0 then
    ({ c with volume := volumeLevel }, [announceVolume volumeLevel], volumeLevel)
  else
    ({ c with mute := true }, [Announcement.muted], volumeLevel)

/-- Embeds `GlobalPlugin.increaseDevice` (`__init__.py`, lines 87-94); same
computation as `increaseSession` on the device endpoint volume. -/
def increaseDevice (c : ControlState) : ControlState × ℚ :=
  let volumeLevel := c.volume
  let c := if volumeLevel ≤ stepChange ∧ c.mute = true then { c with mute := false } else c
  let volumeLevel := min 1 (volumeLevel + stepChange)
  ({ c with volume := volumeLevel }, volumeLevel)

/-- Embeds `GlobalPlugin.decreaseDevice` (`__init__.py`, lines 96-106); same
computation as `decreaseSession` on the device endpoint volume. -/
def decreaseDevice (c : ControlState) : ControlState × List Announcement × ℚ :=
  let volumeLevel := c.volume
  let volumeLevel := max 0 (volumeLevel - stepChange)
  if volumeLevel > 0 then
    ({ c with volume := volumeLevel }, [announceVolume volumeLevel], volumeLevel)
  else
    ({ c with mute := true }, [Announcement.muted], volumeLevel)

/-- Failure of a native volume/mute call on an invalidated handle
(`ControlUnavailable` in the spec, a COM error in practice). -/
inductive CtrlErr where
  | controlUnavailable
deriving DecidableEq, Repr

/-- A native control handle together with its availability: when `avail` is
`false` every get/set call on it fails with `ControlUnavailable`
(spec, section 4.1: the underlying handle has been invalidated because the
device was removed or the process exited). -/
structure FCtrl where
  avail : Bool
  st : ControlState
deriving DecidableEq, Repr

/-- Volume read on a possibly invalidated handle
(`GetMasterVolume` / `GetMasterVolumeLevelScalar`). -/
def fGetVolume (c : FCtrl) : Except CtrlErr ℚ :=
  if c.avail = true then Except.ok c.st.volume else Except.error CtrlErr.controlUnavailable

/-- Volume write on a possibly invalidated handle
(`SetMasterVolume` / `SetMasterVolumeLevelScalar`). -/
def fSetVolume (c : FCtrl) (v : ℚ) : Except CtrlErr FCtrl :=
  if c.avail = true then Except.ok { c with st := { c.st with volume := v } }
  else Except.error CtrlErr.controlUnavailable

/-- Mute read on a possibly invalidated handle (`GetMute`). -/
def fGetMute (c : FCtrl) : Except CtrlErr Bool :=
  if c.avail = true then Except.ok c.st.mute else Except.error CtrlErr.controlUnavailable

/-- Mute write on a possibly invalidated handle (`SetMute`). -/
def fSetMute (c : FCtrl) (m : Bool) : Except CtrlErr FCtrl :=
  if c.avail = true then Except.ok { c with st := { c.st with mute := m } }
  else Except.error CtrlErr.controlUnavailable

/-- Embeds the command handler `script_volumeUp` (`__init__.py`, lines
124-133) acting on the currently selected control, with each native call's
possible `ControlUnavailable` failure made explicit.  The device branch
(`increaseDevice`) and the session branch (`increaseSession`) perform the
same calls on their respective control, so one handler over the selected
control covers both.  The handler body contains no exception handling, so a
failing call aborts the command and the error propagates to the caller. -/
def script_volumeUpF (c : FCtrl) : Except CtrlErr (FCtrl × List Announcement) := do
  let volumeLevel ← fGetVolume c
  let c ←
    if volumeLevel ≤ stepChange then do
      let m ← fGetMute c
      if m then fSetMute c false else pure c
    else pure c
  let volumeLevel := min 1 (volumeLevel + stepChange)
  let c ← fSetVolume c volumeLevel
  pure (c, [announceVolume volumeLevel])

/-- Embeds the command handler `script_volumeDown` (`__init__.py`, lines
137-145; body of `decreaseSession`/`decreaseDevice`) with failures
explicit. -/
def script_volumeDownF (c : FCtrl) : Except CtrlErr (FCtrl × List Announcement) := do
  let volumeLevel ← fGetVolume c
  let volumeLevel := max 0 (volumeLevel - stepChange)
  if volumeLevel > 0 then do
    let c ← fSetVolume c volumeLevel
    pure (c, [announceVolume volumeLevel])
  else do
    let c ← fSetMute c true
    pure (c, [Announcement.muted])

/-- Embeds the command handler `script_volumeMax` (`__init__.py`, lines
149-165) with failures explicit: unmute if muted, set volume to `1.0`,
re-read it, announce. -/
def script_volumeMaxF (c : FCtrl) : Except CtrlErr (FCtrl × List Announcement) := do
  let m ← fGetMute c
  let c ← if m then fSetMute c false else pure c
  let c ← fSetVolume c 1
  let volumeLevel ← fGetVolume c
  pure (c, [announceVolume volumeLevel])

/-- Embeds the command handler `script_volumeMin` (`__init__.py`, lines
169-181) with failures explicit: set volume to `0.0` (no mute call at all),
re-read it, announce. -/
def script_volumeMinF (c : FCtrl) : Except CtrlErr (FCtrl × List Announcement) := do
  let c ← fSetVolume c 0
  let volumeLevel ← fGetVolume c
  pure (c, [announceVolume volumeLevel])

/-- An audio device entry as used by navigation and announcement: its
human-readable name and whether it is tagged as the system default. -/
structure AudioDevice where
  name : String
  default : Bool
deriving DecidableEq, Repr

/-- A native audio session as enumerated by `AudioUtilities.GetAllSessions()`:
`process` is `some n` when the session has a backing process (truthy
`s.Process`) with name `n` (`s.Process.name()`), and `none` otherwise.  For
sessions that survive the plugin's filter only the process name is ever
consumed, so that is all the model records. -/
structure Session where
  process : Option String
deriving DecidableEq, Repr

/-- Embeds the session query of `script_nextProcess`/`script_prevProcess`
(`__init__.py`, lines 190 and 201):
`[s for s in AudioUtilities.GetAllSessions() if s.Process and s.Process.name]`.
A session is kept exactly when it has a backing process (`s.Process.name`
is an attribute access on a process object, hence always truthy when the
process exists); the kept sessions are represented by their process
names. -/
def liveSessions (allSessions : List Session) : List String :=
  allSessions.filterMap (fun s => s.process)

/-- The total navigable count used by `script_nextProcess` and
`script_prevProcess`: `len(self._devices) + len(sessions)` (`__init__.py`,
lines 191 and 202), where `sessions` is the freshly queried live session
list.  No hidden-set filtering occurs here: `__init__.py` never consults
the hidden-process configuration. -/
def totalCount (devices : List AudioDevice) (allSessions : List Session) : ℕ :=
  devices.length + (liveSessions allSessions).length

/-- Embeds the index update of `script_nextProcess` (`__init__.py`, line 191):
`self._index = self._index+1 if self._index<(len(self._devices)+len(sessions)-1) else 0`. -/
def nextIndex (devices : List AudioDevice) (allSessions : List Session) (index : ℤ) : ℤ :=
  if index < (totalCount devices allSessions : ℤ) - 1 then index + 1 else 0

/-- Embeds the index update of `script_prevProcess` (`__init__.py`, line 202):
`self._index = self._index-1 if self._index>0 else len(self._devices)+len(sessions)-1`. -/
def prevIndex (devices : List AudioDevice) (allSessions : List Session) (index : ℤ) : ℤ :=
  if index > 0 then index - 1 else (totalCount devices allSessions : ℤ) - 1

/-- Modelled from the spec: `SessionResolver.listVisibleSessionNames`
(defined in `core.py`, which is not among the sources here) — "live session
process names minus `HiddenSet.hiddenProcessNames`, preserving native
enumeration order, deduplication not applied" (spec, section 4.3). -/
def listVisibleSessionNames (hiddenProcessNames : List String) (allSessions : List Session) :
    List String :=
  (liveSessions allSessions).filter (fun n => decide (n ∉ hiddenProcessNames))

/-- Python list indexing semantics for an integer index: a non-negative
index reads from the front, a negative index `i` with `-len ≤ i` reads
position `len + i`, and anything else is an `IndexError` (`none`). -/
def pyGet? {α : Type} (l : List α) (i : ℤ) : Option α :=
  if 0 ≤ i then l[i.toNat]?
  else if 0 ≤ (l.length : ℤ) + i then l[((l.length : ℤ) + i).toNat]?
  else none

/-- Embedded Python exception relevant here: `IndexError`. -/
inductive PyErr where
  | indexError
deriving DecidableEq, Repr

/-- The plugin state read and written by `selectAudioSource`: the device
registry, the cursor index and the cached selected process name
(`self._devices`, `self._index`, `self._selectedProcess`). -/
structure NavState where
  devices : List AudioDevice
  index : ℤ
  selectedProcess : String
deriving DecidableEq, Repr

/-- Embeds `GlobalPlugin.selectAudioSource` (`__init__.py`, lines 108-120).
`title` stands for the session title lookup `AudioSession(name).title`
(defined in `core.py`, which is not among the sources here; the spec,
section 4.4, describes it as the session's title metadata with a fallback
to the process name).  `sessions` is the freshly queried live session list
passed by the caller, represented by process names.  The device branch
announces the device name, prefixed with the localized default marker; in
the session branch the out-of-range lookup's `IndexError` is swallowed
(`except IndexError: pass`) and the previously cached process name is used,
while an out-of-range device lookup would raise.  Returns the updated state
and the announced title. -/
def selectAudioSource (title : String → String) (st : NavState) (sessions : List String) :
    Except PyErr (NavState × String) :=
  if st.index < (st.devices.length : ℤ) then
    match pyGet? st.devices st.index with
    | some d =>
        Except.ok (st, if d.default then "default" ++ ": " ++ d.name else d.name)
    | none => Except.error PyErr.indexError
  else
    match pyGet? sessions (st.index - (st.devices.length : ℤ)) with
    | some n => Except.ok ({ st with selectedProcess := n }, title n)
    | none => Except.ok (st, title st.selectedProcess)

/-- Sample device used to instantiate universally quantified results. -/
def sampleDevice : AudioDevice :=
  { name := "Speakers", default := true }

/-- Sample live session used to instantiate universally quantified results. -/
def sampleSession : Session :=
  { process := some "app.exe" }

/-- On an in-range index the `script_nextProcess` update is exactly the
successor modulo the total navigable count. -/
theorem nextIndex_eq_emod (dv : List AudioDevice) (ss : List Session) {i : ℤ}
    (h0 : 0 ≤ i) (h1 : i < (totalCount dv ss : ℤ)) :
    nextIndex dv ss i = (i + 1) % (totalCount dv ss : ℤ) := by
  unfold nextIndex
  split
  · rw [Int.emod_eq_of_lt (by omega) (by omega)]
  · have h : i + 1 = (totalCount dv ss : ℤ) := by omega
    rw [h, Int.emod_self]

/-- Iterating the `script_nextProcess` update from an in-range index adds the
iteration count modulo the total navigable count. -/
theorem nextIndex_iterate (dv : List AudioDevice) (ss : List Session)
    (ht : 1 ≤ totalCount dv ss) :
    ∀ (k : ℕ) {i : ℤ}, 0 ≤ i → i < (totalCount dv ss : ℤ) →
      (nextIndex dv ss)^[k] i = (i + k) % (totalCount dv ss : ℤ) := by
  intro k
  induction k with
  | zero =>
      intro i h0 h1
      simp [Int.emod_eq_of_lt h0 h1]
  | succ k ih =>
      intro i h0 h1
      have htZ : (0 : ℤ) < (totalCount dv ss : ℤ) := by exact_mod_cast ht
      rw [Function.iterate_succ_apply, nextIndex_eq_emod dv ss h0 h1,
        ih (Int.emod_nonneg _ (by omega)) (Int.emod_lt_of_pos _ htZ),
        Int.add_emod ((i + 1) % _) _, Int.emod_emod_of_dvd _ dvd_rfl, ← Int.add_emod]
      congr 1
      push_cast
      ring

/-- When the combined list is empty the `script_nextProcess` update keeps the
index at `0`. -/
theorem nextIndex_of_empty (dv : List AudioDevice) (ss : List Session)
    (h : totalCount dv ss = 0) : nextIndex dv ss 0 = 0 := by
  unfold nextIndex
  rw [h]
  norm_num

/-- Filtering a list strictly shortens it as soon as one member fails the
predicate. -/
theorem length_filter_lt_of_mem {α : Type} {p : α → Bool} {l : List α} {x : α}
    (hx : x ∈ l) (hp : p x = false) : (List.filter p l).length < l.length := by
  induction l with
  | nil => simp at hx
  | cons a l ih =>
      rcases List.mem_cons.mp hx with rfl | hx'
      · rw [List.filter_cons, hp]
        exact Nat.lt_succ_of_le (by simpa using List.length_filter_le p l)
      · rw [List.filter_cons]
        cases hpa : p a
        · exact Nat.lt_succ_of_le (by simpa using List.length_filter_le p l)
        · simpa using Nat.succ_lt_succ (ih hx')

/-- C1: the claimed cursor invariant fails on the code: `script_prevProcess`
invoked with index `0` while the device list and the live session list are
both empty sets the index to `len(devices)+len(sessions)-1 = -1`, a negative
index, not `0`. -/
theorem c1_counterexample :
    prevIndex ([] : List AudioDevice) ([] : List Session) 0 = -1 ∧
    prevIndex ([] : List AudioDevice) ([] : List Session) 0 < 0 := by
  constructor <;> norm_num [prevIndex, totalCount, liveSessions]

/-- C1 (amended): after `script_nextProcess` the index lands in
`[0, totalCount)` whenever the combined list is non-empty and the starting
index is at least `-1` (every reachable index is), and lands on `0` when the
combined list is empty; after `script_prevProcess` the index lands in
`[0, totalCount)` whenever the combined list is non-empty and the starting
index is at most `totalCount`, but on an empty combined list
`script_prevProcess` sets the index to `-1`, not `0`. -/
theorem c1_amended (dv : List AudioDevice) (ss : List Session) (i : ℤ) :
    (1 ≤ totalCount dv ss → -1 ≤ i →
      0 ≤ nextIndex dv ss i ∧ nextIndex dv ss i < (totalCount dv ss : ℤ)) ∧
    (totalCount dv ss = 0 → -1 ≤ i → nextIndex dv ss i = 0) ∧
    (1 ≤ totalCount dv ss → i ≤ (totalCount dv ss : ℤ) →
      0 ≤ prevIndex dv ss i ∧ prevIndex dv ss i < (totalCount dv ss : ℤ)) ∧
    (totalCount dv ss = 0 → i ≤ 0 → prevIndex dv ss i = -1) := by
  unfold nextIndex prevIndex
  refine ⟨?_, ?_, ?_, ?_⟩ <;> intro h1 h2 <;> split <;> omega

/-- C1 (amended) at concrete inputs: one device and no session from index
`0`, and the empty configuration from index `-1` and `0`. -/
theorem c1_amended_witness :
    (0 ≤ nextIndex [sampleDevice] [] 0 ∧
      nextIndex [sampleDevice] [] 0 < (totalCount [sampleDevice] [] : ℤ)) ∧
    nextIndex ([] : List AudioDevice) ([] : List Session) (-1) = 0 ∧
    (0 ≤ prevIndex [sampleDevice] [] 0 ∧
      prevIndex [sampleDevice] [] 0 < (totalCount [sampleDevice] [] : ℤ)) ∧
    prevIndex ([] : List AudioDevice) ([] : List Session) 0 = -1 :=
  ⟨(c1_amended [sampleDevice] [] 0).1 (by decide) (by decide),
   (c1_amended [] [] (-1)).2.1 rfl (by decide),
   (c1_amended [sampleDevice] [] 0).2.2.1 (by decide) (by decide),
   (c1_amended [] [] 0).2.2.2 rfl (by decide)⟩

/-- C3: wraparound closure: for a fixed device list and session list with at
least one navigable entry, applying the `script_nextProcess` index update
`totalCount` times from any starting index in `[0, totalCount)` returns the
index to its starting value; when the combined list is empty, repeated calls
from the resting index `0` leave the index unchanged. -/
theorem c3_wraparound (dv : List AudioDevice) (ss : List Session) (i : ℤ) (n : ℕ) :
    (1 ≤ totalCount dv ss → 0 ≤ i → i < (totalCount dv ss : ℤ) →
      (nextIndex dv ss)^[totalCount dv ss] i = i) ∧
    (totalCount dv ss = 0 → (nextIndex dv ss)^[n] 0 = 0) := by
  constructor
  · intro ht h0 h1
    rw [nextIndex_iterate dv ss ht _ h0 h1, Int.add_emod, Int.emod_self, add_zero,
      Int.emod_emod_of_dvd _ dvd_rfl, Int.emod_eq_of_lt h0 h1]
  · intro ht
    induction n with
    | zero => rfl
    | succ n ihn => rw [Function.iterate_succ_apply', ihn, nextIndex_of_empty dv ss ht]

/-- C3 at concrete inputs: one device and one live session cycled twice from
index `1`, and five no-op calls on the empty configuration. -/
theorem c3_wraparound_witness :
    (nextIndex [sampleDevice] [sampleSession])^[totalCount [sampleDevice] [sampleSession]] 1 = 1 ∧
    (nextIndex ([] : List AudioDevice) ([] : List Session))^[5] 0 = 0 :=
  ⟨(c3_wraparound [sampleDevice] [sampleSession] 1 5).1 (by decide) (by decide) (by decide),
   (c3_wraparound [] [] 0 5).2 rfl⟩

/-- C2: the claim fails on the code: with `hiddenProcessNames = {"app.exe"}`
and exactly one live session `"app.exe"`, the total navigable count used by
`script_nextProcess`/`script_prevProcess` is `deviceCount + 1 = 2`, not
`deviceCount = 1`: the navigation code never consults the hidden set. -/
theorem c2_counterexample :
    "app.exe" ∈ (["app.exe"] : List String) ∧
    totalCount [sampleDevice] [sampleSession] = 2 ∧
    ¬ totalCount [sampleDevice] [sampleSession] = [sampleDevice].length := by
  refine ⟨by decide, rfl, by decide⟩

/-- C2 (amended): the total navigable count used by `next()`/`previous()`
equals `deviceCount` plus the number of live sessions that have a backing
process, with no hidden-set filtering: whenever some live session's process
name is in `hiddenProcessNames`, the spec's formula
`deviceCount + visibleSessionCount` strictly undercounts the code's
`totalCount`. -/
theorem c2_amended (hiddenProcessNames : List String) (dv : List AudioDevice)
    (ss : List Session) :
    totalCount dv ss = dv.length + (liveSessions ss).length ∧
    ((∃ n ∈ liveSessions ss, n ∈ hiddenProcessNames) →
      dv.length + (listVisibleSessionNames hiddenProcessNames ss).length < totalCount dv ss) := by
  refine ⟨rfl, ?_⟩
  rintro ⟨n, hn, hmem⟩
  have h : (listVisibleSessionNames hiddenProcessNames ss).length < (liveSessions ss).length := by
    refine length_filter_lt_of_mem hn ?_
    rw [decide_eq_false_iff_not]
    exact not_not_intro hmem
  unfold totalCount
  omega

/-- C2 (amended) at concrete inputs: one device, one live session
`"app.exe"`, hidden set `{"app.exe"}`. -/
theorem c2_amended_witness :
    totalCount [sampleDevice] [sampleSession] =
      [sampleDevice].length + (liveSessions [sampleSession]).length ∧
    [sampleDevice].length +
      (listVisibleSessionNames ["app.exe"] [sampleSession]).length <
      totalCount [sampleDevice] [sampleSession] :=
  ⟨(c2_amended ["app.exe"] [sampleDevice] [sampleSession]).1,
   (c2_amended ["app.exe"] [sampleDevice] [sampleSession]).2
     ⟨"app.exe", by decide, by decide⟩⟩

/-- C4: decrease applied to an unmuted control sitting at volume `0.0` takes
the muting branch: the mute flag becomes `true`, the stored volume stays
`0.0` and the muted announcement is produced instead of the generic
volume-level announcement (and `script_volumeDown` adds no announcement of
its own, unlike `script_volumeUp`). -/
theorem c4_decrease_at_zero (c : ControlState) (hv : c.volume = 0) (hm : c.mute = false) :
    decreaseSession c = ({ c with mute := true }, [Announcement.muted], 0) ∧
    decreaseDevice c = ({ c with mute := true }, [Announcement.muted], 0) ∧
    (decreaseSession c).1.volume = 0 ∧ (decreaseSession c).1.mute = true := by
  have hmax : max (0 : ℚ) (c.volume - stepChange) = 0 := by
    rw [hv, max_eq_left]
    norm_num [stepChange]
  have h1 : decreaseSession c = ({ c with mute := true }, [Announcement.muted], 0) := by
    unfold decreaseSession
    dsimp only
    rw [hmax, if_neg (lt_irrefl 0)]
  have h2 : decreaseDevice c = ({ c with mute := true }, [Announcement.muted], 0) := by
    unfold decreaseDevice
    dsimp only
    rw [hmax, if_neg (lt_irrefl 0)]
  exact ⟨h1, h2, by rw [h1]; exact hv, by rw [h1]⟩

/-- C4 at a concrete input: an unmuted control at volume `0`. -/
theorem c4_decrease_at_zero_witness :
    decreaseSession ⟨0, false⟩ = (⟨0, true⟩, [Announcement.muted], 0) ∧
    decreaseDevice ⟨0, false⟩ = (⟨0, true⟩, [Announcement.muted], 0) ∧
    (decreaseSession ⟨0, false⟩).1.volume = 0 ∧ (decreaseSession ⟨0, false⟩).1.mute = true :=
  c4_decrease_at_zero ⟨0, false⟩ rfl rfl

/-- C5: increase unmutes a muted control whose volume is at most the step,
and for every starting volume in `[0,1]` the resulting stored and returned
volume equals `min 1 (volume + stepChange)`. -/
theorem c5_increase (c : ControlState) :
    (c.mute = true → c.volume ≤ stepChange →
      (increaseSession c).1.mute = false ∧ (increaseDevice c).1.mute = false) ∧
    (0 ≤ c.volume → c.volume ≤ 1 →
      (increaseSession c).1.volume = min 1 (c.volume + stepChange) ∧
      (increaseSession c).2 = min 1 (c.volume + stepChange) ∧
      (increaseDevice c).1.volume = min 1 (c.volume + stepChange) ∧
      (increaseDevice c).2 = min 1 (c.volume + stepChange)) := by
  constructor
  · intro hm hv
    constructor <;> simp [increaseSession, increaseDevice, hv, hm]
  · intro h0 h1
    refine ⟨?_, ?_, ?_, ?_⟩ <;> simp [increaseSession, increaseDevice]

/-- C5 at a concrete input: a muted control at volume `1/200 ≤ stepChange`. -/
theorem c5_increase_witness :
    ((increaseSession ⟨1/200, true⟩).1.mute = false ∧
      (increaseDevice ⟨1/200, true⟩).1.mute = false) ∧
    ((increaseSession ⟨1/200, true⟩).1.volume = min 1 (1/200 + stepChange) ∧
      (increaseSession ⟨1/200, true⟩).2 = min 1 (1/200 + stepChange) ∧
      (increaseDevice ⟨1/200, true⟩).1.volume = min 1 (1/200 + stepChange) ∧
      (increaseDevice ⟨1/200, true⟩).2 = min 1 (1/200 + stepChange)) :=
  ⟨(c5_increase ⟨1/200, true⟩).1 rfl (by norm_num [stepChange]),
   (c5_increase ⟨1/200, true⟩).2 (by norm_num) (by norm_num)⟩

/-- C10: on the muting branch of decrease (volume positive but at most the
step) the volume scalar is never written: the mute flag is set, the stored
volume is left at its old value, and the value returned as the new level is
`0.0`. -/
theorem c10_mute_branch_keeps_volume (c : ControlState)
    (h0 : 0 < c.volume) (h1 : c.volume ≤ stepChange) :
    decreaseSession c = ({ c with mute := true }, [Announcement.muted], 0) ∧
    decreaseDevice c = ({ c with mute := true }, [Announcement.muted], 0) ∧
    (decreaseSession c).1.volume = c.volume ∧ (decreaseSession c).2.2 = 0 := by
  have hmax : max (0 : ℚ) (c.volume - stepChange) = 0 := max_eq_left (by linarith)
  have hs : decreaseSession c = ({ c with mute := true }, [Announcement.muted], 0) := by
    unfold decreaseSession
    dsimp only
    rw [hmax, if_neg (lt_irrefl 0)]
  have hd : decreaseDevice c = ({ c with mute := true }, [Announcement.muted], 0) := by
    unfold decreaseDevice
    dsimp only
    rw [hmax, if_neg (lt_irrefl 0)]
  exact ⟨hs, hd, by rw [hs], by rw [hs]⟩

/-- C10 at a concrete input: an unmuted control at volume `1/200`, strictly
between `0` and the step. -/
theorem c10_mute_branch_keeps_volume_witness :
    decreaseSession ⟨1/200, false⟩ = (⟨1/200, true⟩, [Announcement.muted], 0) ∧
    decreaseDevice ⟨1/200, false⟩ = (⟨1/200, true⟩, [Announcement.muted], 0) ∧
    (decreaseSession ⟨1/200, false⟩).1.volume = 1/200 ∧
    (decreaseSession ⟨1/200, false⟩).2.2 = 0 :=
  c10_mute_branch_keeps_volume ⟨1/200, false⟩ (by norm_num) (by norm_num [stepChange])

/-- The stored volume after increase is `min 1 (volume + stepChange)`
whatever the mute flag was. -/
theorem increaseSession_volume (c : ControlState) :
    (increaseSession c).1.volume = min 1 (c.volume + stepChange) := by
  simp [increaseSession]

/-- Device counterpart of `increaseSession_volume`. -/
theorem increaseDevice_volume (c : ControlState) :
    (increaseDevice c).1.volume = min 1 (c.volume + stepChange) := by
  simp [increaseDevice]

/-- The stored volume after decrease: the clamped lowered level when it is
still positive, the untouched old volume on the muting branch. -/
theorem decreaseSession_volume (c : ControlState) :
    (decreaseSession c).1.volume =
      if max 0 (c.volume - stepChange) > 0 then max 0 (c.volume - stepChange)
      else c.volume := by
  unfold decreaseSession
  dsimp only
  split <;> rfl

/-- Device counterpart of `decreaseSession_volume`. -/
theorem decreaseDevice_volume (c : ControlState) :
    (decreaseDevice c).1.volume =
      if max 0 (c.volume - stepChange) > 0 then max 0 (c.volume - stepChange)
      else c.volume := by
  unfold decreaseDevice
  dsimp only
  split <;> rfl

/-- Arithmetic core of the round-trip bound: lowering the raised level lands
within one step of the starting volume and inside `[0,1]`. -/
theorem roundtrip_arith {v : ℚ} (h0 : 0 ≤ v) (h1 : v ≤ 1) :
    |(if max 0 (min 1 (v + stepChange) - stepChange) > 0
        then max 0 (min 1 (v + stepChange) - stepChange)
        else min 1 (v + stepChange)) - v| ≤ stepChange ∧
    0 ≤ (if max 0 (min 1 (v + stepChange) - stepChange) > 0
        then max 0 (min 1 (v + stepChange) - stepChange)
        else min 1 (v + stepChange)) ∧
    (if max 0 (min 1 (v + stepChange) - stepChange) > 0
        then max 0 (min 1 (v + stepChange) - stepChange)
        else min 1 (v + stepChange)) ≤ 1 := by
  have hs : (0 : ℚ) < stepChange := by norm_num [stepChange]
  have hs1 : stepChange < 1 := by norm_num [stepChange]
  rcases le_or_lt (v + stepChange) 1 with hle | hgt
  · rw [min_eq_right hle]
    have e1 : v + stepChange - stepChange = v := by ring
    rw [e1, max_eq_right h0]
    rcases lt_or_eq_of_le h0 with hv | hv
    · rw [if_pos hv]
      refine ⟨?_, h0, h1⟩
      rw [sub_self, abs_zero]
      exact le_of_lt hs
    · rw [if_neg (by rw [← hv]; exact lt_irrefl 0), ← hv]
      refine ⟨?_, by linarith, by linarith⟩
      rw [sub_zero, zero_add, abs_of_pos hs]
  · rw [min_eq_left (by linarith)]
    rw [max_eq_right (by linarith : (0 : ℚ) ≤ 1 - stepChange), if_pos (by linarith)]
    refine ⟨?_, by linarith, by linarith⟩
    rw [abs_le]
    constructor <;> linarith

/-- C8: round-trip bound: from any starting volume in `[0,1]`, increase
followed by decrease leaves the stored volume within `stepChange` of the
start and inside `[0,1]`, on the session control and on the device
control alike. -/
theorem c8_roundtrip (c : ControlState) (h0 : 0 ≤ c.volume) (h1 : c.volume ≤ 1) :
    |(decreaseSession (increaseSession c).1).1.volume - c.volume| ≤ stepChange ∧
    0 ≤ (decreaseSession (increaseSession c).1).1.volume ∧
    (decreaseSession (increaseSession c).1).1.volume ≤ 1 ∧
    |(decreaseDevice (increaseDevice c).1).1.volume - c.volume| ≤ stepChange ∧
    0 ≤ (decreaseDevice (increaseDevice c).1).1.volume ∧
    (decreaseDevice (increaseDevice c).1).1.volume ≤ 1 := by
  obtain ⟨hA, hB, hC⟩ := roundtrip_arith h0 h1
  rw [decreaseSession_volume, increaseSession_volume, decreaseDevice_volume,
    increaseDevice_volume]
  exact ⟨hA, hB, hC, hA, hB, hC⟩

/-- C8 at a concrete input: an unmuted control at volume `1/2`. -/
theorem c8_roundtrip_witness :
    |(decreaseSession (increaseSession ⟨1/2, false⟩).1).1.volume - 1/2| ≤ stepChange ∧
    0 ≤ (decreaseSession (increaseSession ⟨1/2, false⟩).1).1.volume ∧
    (decreaseSession (increaseSession ⟨1/2, false⟩).1).1.volume ≤ 1 ∧
    |(decreaseDevice (increaseDevice ⟨1/2, false⟩).1).1.volume - 1/2| ≤ stepChange ∧
    0 ≤ (decreaseDevice (increaseDevice ⟨1/2, false⟩).1).1.volume ∧
    (decreaseDevice (increaseDevice ⟨1/2, false⟩).1).1.volume ≤ 1 :=
  c8_roundtrip ⟨1/2, false⟩ (by norm_num) (by norm_num)

/-- C6: `script_volumeMin` writes volume `0.0` and never touches the mute
flag: on an available control the resulting mute flag equals the old one,
so an unmuted control stays unmuted even though its volume is now `0.0`
(asymmetric with decrease, which mutes on reaching zero). -/
theorem c6_volumeMin (c : FCtrl) (ha : c.avail = true) :
    script_volumeMinF c = Except.ok (⟨true, ⟨0, c.st.mute⟩⟩, [Announcement.volume 0]) ∧
    (c.st.mute = false →
      script_volumeMinF c = Except.ok (⟨true, ⟨0, false⟩⟩, [Announcement.volume 0])) := by
  rcases c with ⟨a, v, m⟩
  cases a
  · exact Bool.noConfusion ha
  · have hfl : announceVolume 0 = Announcement.volume 0 := by
      unfold announceVolume
      norm_num
    have h0 : script_volumeMinF ⟨true, v, m⟩ =
        Except.ok (⟨true, ⟨0, m⟩⟩, [announceVolume 0]) := rfl
    have h1 : script_volumeMinF ⟨true, v, m⟩ =
        Except.ok (⟨true, ⟨0, m⟩⟩, [Announcement.volume 0]) := by
      rw [h0, hfl]
    refine ⟨h1, fun hm => ?_⟩
    have hm' : m = false := hm
    rw [h1, hm']

/-- C6 at a concrete input: an available unmuted control at volume `3/4`. -/
theorem c6_volumeMin_witness :
    script_volumeMinF ⟨true, 3/4, false⟩ =
      Except.ok (⟨true, ⟨0, false⟩⟩, [Announcement.volume 0]) :=
  (c6_volumeMin ⟨true, 3/4, false⟩ rfl).2 rfl

/-- C7: the claim fails on the code: on a control whose handle has been
invalidated, `script_volumeUp` does not catch the failure — the
`ControlUnavailable` error propagates out of the command handler (none of
the handlers contains any exception handling), rather than the command
becoming a silent no-op. -/
theorem c7_counterexample :
    script_volumeUpF ⟨false, 1/2, false⟩ = Except.error CtrlErr.controlUnavailable ∧
    script_volumeUpF ⟨false, 1/2, false⟩ ≠ Except.ok (⟨false, 1/2, false⟩, []) := by
  refine ⟨rfl, fun h => ?_⟩
  rw [show script_volumeUpF ⟨false, 1/2, false⟩ = Except.error CtrlErr.controlUnavailable
    from rfl] at h
  exact Except.noConfusion h

/-- C7 (amended): when the underlying control handle has been invalidated,
every volume command (volume-up, volume-down, volume-max, volume-min)
propagates the `ControlUnavailable` failure out of the command handler; no
announcement is produced because the command aborts at the first failing
native call. -/
theorem c7_amended (c : FCtrl) (h : c.avail = false) :
    script_volumeUpF c = Except.error CtrlErr.controlUnavailable ∧
    script_volumeDownF c = Except.error CtrlErr.controlUnavailable ∧
    script_volumeMaxF c = Except.error CtrlErr.controlUnavailable ∧
    script_volumeMinF c = Except.error CtrlErr.controlUnavailable := by
  rcases c with ⟨a, st⟩
  cases a
  · exact ⟨rfl, rfl, rfl, rfl⟩
  · exact Bool.noConfusion h

/-- C7 (amended) at a concrete input: an invalidated muted control. -/
theorem c7_amended_witness :
    script_volumeUpF ⟨false, 1/2, true⟩ = Except.error CtrlErr.controlUnavailable ∧
    script_volumeDownF ⟨false, 1/2, true⟩ = Except.error CtrlErr.controlUnavailable ∧
    script_volumeMaxF ⟨false, 1/2, true⟩ = Except.error CtrlErr.controlUnavailable ∧
    script_volumeMinF ⟨false, 1/2, true⟩ = Except.error CtrlErr.controlUnavailable :=
  c7_amended ⟨false, 1/2, true⟩ rfl

/-- C9: when the cursor points into the session range but the freshly
requeried session list is too short, `selectAudioSource` swallows the
`IndexError`: it does not raise, leaves the cached selected process name
and the index unchanged, and announces the cached process's session
title. -/
theorem c9_stale_session_index (title : String → String) (st : NavState)
    (sessions : List String)
    (hdev : (st.devices.length : ℤ) ≤ st.index)
    (hlen : (sessions.length : ℤ) ≤ st.index - st.devices.length) :
    selectAudioSource title st sessions = Except.ok (st, title st.selectedProcess) := by
  unfold selectAudioSource
  rw [if_neg (by omega)]
  have hnone : pyGet? sessions (st.index - (st.devices.length : ℤ)) = none := by
    unfold pyGet?
    rw [if_pos (by omega)]
    exact List.getElem?_eq_none (by omega)
  rw [hnone]

/-- C9 at a concrete input: no devices, index `2`, an empty session list and
a cached process name. -/
theorem c9_stale_session_index_witness :
    selectAudioSource (fun s => s) { devices := [], index := 2, selectedProcess := "cached.exe" }
      [] =
      Except.ok ({ devices := [], index := 2, selectedProcess := "cached.exe" }, "cached.exe") :=
  c9_stale_session_index (fun s => s) _ [] (by decide) (by decide)

end VolumeAdjustment
